/-
Verification of the flask_toolbox validation layer
(src/flask_toolbox/validation.py) against its natural-language
specification.  The Python code is shallowly embedded: each relevant
function of the source becomes a Lean definition, with marshmallow's
(the third-party engine's) behaviour at the call sites modelled exactly
as the marshmallow 2.x code the file runs against.
-/
import Mathlib

namespace FlaskToolbox

/-- Modelled from the spec: the message catalog
(plangrid.flask_toolbox.messages, not under src/) supplies opaque
error messages by key: invalid_object_id, invalid_uuid,
required_field_missing(name), required_field_empty(name),
unsupported_fields(names).  Only message identity matters to the
claims, so the catalog is an inductive of the keys; the two extra
constructors are marshmallow's own built-in field errors
(null on a non-nullable field, non-integer input to an Integer). -/
inductive Msg where
  | invalid_object_id : Msg
  | invalid_uuid : Msg
  | required_field_missing : String → Msg
  | required_field_empty : String → Msg
  | unsupported_fields : Finset String → Msg
  | field_may_not_be_null : Msg
  | not_a_valid_integer : Msg
deriving DecidableEq

/-- A JSON-like runtime value, the data the schemas load and dump. -/
inductive Value where
  | null : Value
  | int : Int → Value
  | str : String → Value
  | listv : List Value → Value
  | dict : List (String × Value) → Value

/-- Association-list lookup; embeds Python dict key lookup
(`data[field_name]`, `field_name in data`). -/
def lookupS {β : Type} : List (String × β) → String → Option β
  | [], _ => none
  | (k, v) :: rest, key => if k = key then some v else lookupS rest key

/-- Embeds Python `d1.update(d2)` on dicts represented as
association lists with distinct keys: every key of d1 keeps its
position, with its value replaced by d2's when d2 also binds it, and
the keys of d2 that are new are appended in d2's order. -/
def dictUpdate {β : Type} (d1 d2 : List (String × β)) : List (String × β) :=
  d1.map (fun p => match lookupS d2 p.1 with
    | some v => (p.1, v)
    | none => p) ++
  d2.filter (fun p => (lookupS d1 p.1).isNone)

/-- validation.py lines 27-31 (ValidateBothWays, schema branch): the
generated dump runs the original class's dump, feeds the serialized
data back through the original class's load, merges the load errors
into the dump errors with dict update, and returns the original
serialized data with the merged errors.  The wrapped class is
arbitrary, so its dump and load are abstract functions returning
(data, errors) pairs, as marshmallow's MarshalResult and
UnmarshalResult do. -/
def wrapped_dump {α γ δ β : Type}
    (dump : α → γ × List (String × β))
    (load : γ → δ × List (String × β))
    (object : α) : γ × List (String × β) :=
  let unchecked := dump object
  let loadRes := load unchecked.1
  (unchecked.1, dictUpdate unchecked.2 loadRes.2)

/-- validation.py lines 21-23 (ValidateBothWays, field branch): the
generated _serialize first runs the field's full deserialize on the
value (a raised validation error aborts with that error), discards
its result, and on success runs the original _serialize. -/
def wrapped_serialize {α β γ : Type}
    (deserialize : α → Except Msg β)
    (serialize : α → γ)
    (value : α) : Except Msg γ :=
  match deserialize value with
  | Except.error e => Except.error e
  | Except.ok _ => Except.ok (serialize value)

/-- The character class [0-9a-fA-F] of the source regexes. -/
def isHexChar (c : Char) : Bool :=
  (('0' ≤ c) && (c ≤ '9')) || (('a' ≤ c) && (c ≤ 'f')) || (('A' ≤ c) && (c ≤ 'F'))

/-- validation.py line 43: Python re.match of the pattern
[0-9a-fA-F]{24}$ with flags=0.  re.match anchors at the start, and an
unescaped dollar with no MULTILINE flag matches at the end of the
string or just before a single trailing newline, so the accepted
strings are 24 hex characters optionally followed by one final
newline character. -/
def reMatchHex24Dollar (s : String) : Bool :=
  (s.data.length = 24 && s.data.all isHexChar) ||
  (s.data.length = 25 && (s.data.take 24).all isHexChar && s.data.getLast? = some '\n')

/-- validation.py line 65: Python re.match of the pattern
[0-9A-Fa-f]{8}-([0-9A-Fa-f]{4}-){3}[0-9A-Fa-f]{12}$ with flags=0:
36 characters, hyphens exactly at indices 8, 13, 18, 23, hex
everywhere else. -/
def uuidBodyMatch (cs : List Char) : Bool :=
  cs.length = 36 &&
  (List.range 36).all (fun i =>
    if i = 8 || i = 13 || i = 18 || i = 23 then cs.getD i ' ' = '-'
    else isHexChar (cs.getD i ' '))

/-- The full UUID regex match, with the same end-anchor semantics as
reMatchHex24Dollar: the dollar also matches before one trailing
newline. -/
def reMatchUUIDDollar (s : String) : Bool :=
  uuidBodyMatch s.data ||
  (s.data.length = 37 && uuidBodyMatch (s.data.take 36) && s.data.getLast? = some '\n')

/-- validation.py lines 48-49 (IsObjectId.__call__): the validator
coerces its argument with str() and then runs the Regexp check,
raising invalid_object_id when the coerced string does not match.
Python's str() is abstracted as a function into String from the
argument's type; the validator itself never inspects the argument's
type. -/
def IsObjectId_call {α : Type} (pyStrFn : α → String) (value : α) : Option Msg :=
  if reMatchHex24Dollar (pyStrFn value) then none else some Msg.invalid_object_id

/-- validation.py lines 70-71 (IsUUID.__call__): same shape as
IsObjectId_call with the UUID pattern and invalid_uuid. -/
def IsUUID_call {α : Type} (pyStrFn : α → String) (value : α) : Option Msg :=
  if reMatchUUIDDollar (pyStrFn value) then none else some Msg.invalid_uuid

/-- The ObjectId field's load path on a string input: marshmallow's
Field.deserialize on a fields.String runs _deserialize (text
coercion, the identity on a str) and then the validators, here the
fixed IsObjectId validator installed by ObjectId.__init__
(validation.py lines 52-59).  Python str() on a str is the
identity. -/
def ObjectId_load (s : String) : Except Msg String :=
  match IsObjectId_call (fun t : String => t) s with
  | some m => Except.error m
  | none => Except.ok s

/-- marshmallow fields.String._serialize on a str: text coercion, the
identity.  This is the behaviour of the UNWRAPPED field's serialize
path: it emits the value unchecked. -/
def string_field_serialize (s : String) : String := s

/-- The ObjectId field's dump path: ObjectId subclasses
ValidateBothWays(fields.String), so _serialize is wrapped_serialize
over the field's own deserialize (ObjectId_load) and the original
fields.String._serialize. -/
def ObjectId_dump (s : String) : Except Msg String :=
  wrapped_serialize ObjectId_load string_field_serialize s

/-- Claim-words predicate (spec wording, for comparison with the
source): the string consists of exactly 24 hexadecimal characters. -/
def is24HexChars (s : String) : Bool :=
  s.data.length = 24 && s.data.all isHexChar

/-- Embeds Python value.split of a single comma on the character
list of the string: every comma is a cut point, empty pieces are
kept, and the empty input yields one empty piece. -/
def splitCommaCs : List Char → List (List Char)
  | [] => [[]]
  | c :: rest =>
    if c = ',' then [] :: splitCommaCs rest
    else
      match splitCommaCs rest with
      | [] => [[c]]
      | s :: ss => (c :: s) :: ss

/-- Embeds Python str.join with separator comma at the character
level. -/
def joinCommaCs : List (List Char) → List Char
  | [] => []
  | [cs] => cs
  | cs :: rest => cs ++ ',' :: joinCommaCs rest

/-- Python value.split of a comma, lifted to String. -/
def pySplitComma (s : String) : List String :=
  (splitCommaCs s.data).map (fun cs => String.mk cs)

/-- Python comma join, lifted to String. -/
def pyJoinComma (l : List String) : String :=
  String.mk (joinCommaCs (l.map String.data))

/-- The inner fields.String item of the CommaSeparatedList under the
claims: item serialize is text coercion, the identity on a str. -/
def string_item_serialize (s : String) : String := s

/-- The inner fields.String item deserialize: text coercion, the
identity on a str, never failing. -/
def string_item_deserialize (s : String) : String := s

/-- validation.py lines 89-91 (CommaSeparatedList._serialize) with a
fields.String inner item: List._serialize serializes every item, then
the override joins str(i) of every serialized item with a comma
(str() on a str is the identity). -/
def commaSeparatedList_serialize (value : List String) : String :=
  pyJoinComma (value.map string_item_serialize)

/-- validation.py lines 85-87 (CommaSeparatedList._deserialize) with a
fields.String inner item: the override splits the incoming string on
commas, then List._deserialize deserializes every piece. -/
def commaSeparatedList_deserialize (value : String) : List String :=
  (pySplitComma value).map string_item_deserialize

/-- The declared type of a marshmallow field, as far as the claims
inspect it. -/
inductive FieldKind where
  | stringK : FieldKind
  | integerK : FieldKind
  | urlK : FieldKind
  | dictK : FieldKind
  | nestedManyK : String → FieldKind
deriving DecidableEq

/-- The per-field state a schema instance holds about one of its
fields: the attributes require_output_fields and
disallow_extra_fields read (required, allow_none, load_from), plus
the declared kind. -/
structure FieldSpec where
  kind : FieldKind
  required : Bool
  allow_none : Bool
  load_from : Option String
deriving DecidableEq

/-- marshmallow fields.String(required=r): allow_none defaults to
false (missing is the sentinel, not None), no load_from. -/
def fields_String (required : Bool) : FieldSpec :=
  ⟨FieldKind.stringK, required, false, none⟩

/-- marshmallow fields.Dict(required=r) with default options. -/
def fields_Dict (required : Bool) : FieldSpec :=
  ⟨FieldKind.dictK, required, false, none⟩

/-- marshmallow fields.Integer() with default options: not required,
allow_none false, no load_from, and no validators. -/
def fields_Integer : FieldSpec :=
  ⟨FieldKind.integerK, false, false, none⟩

/-- marshmallow fields.URL with the given allow_none. -/
def fields_URL (allowNone : Bool) : FieldSpec :=
  ⟨FieldKind.urlK, false, allowNone, none⟩

/-- marshmallow fields.Nested(schema, many=True) with default
options. -/
def fields_NestedMany (schemaName : String) : FieldSpec :=
  ⟨FieldKind.nestedManyK schemaName, false, false, none⟩

/-- validation.py lines 110-117
(ActuallyRequireOnDumpMixin.require_output_fields): iterate the
schema's fields in order; for a required field, raise
required_field_missing(name) when the name is not a key of the
dumped data, or required_field_empty(name) when the field does not
allow none and the dumped value is null; the raise aborts the loop,
so the result is the first raised message, if any.  The schema's
field dict is the ordered association list flds. -/
def require_output_fields : List (String × FieldSpec) → List (String × Value) → Option Msg
  | [], _ => none
  | (name, f) :: rest, data =>
    if f.required then
      match lookupS data name with
      | none => some (Msg.required_field_missing name)
      | some Value.null =>
        if f.allow_none then require_output_fields rest data
        else some (Msg.required_field_empty name)
      | some _ => require_output_fields rest data
    else require_output_fields rest data

/-- A field (name, f) is in violation on the dumped data exactly when
require_output_fields would raise at it: required and either absent
from the data, or present as null while not allowing none. -/
def violates (data : List (String × Value)) (nf : String × FieldSpec) : Bool :=
  nf.2.required &&
    (match lookupS data nf.1 with
     | none => true
     | some Value.null => !nf.2.allow_none
     | some _ => false)

/-- The message require_output_fields raises at a violating field:
required_field_missing when the key is absent, required_field_empty
when present (necessarily null). -/
def violationMsg (data : List (String × Value)) (nf : String × FieldSpec) : Msg :=
  match lookupS data nf.1 with
  | none => Msg.required_field_missing nf.1
  | some _ => Msg.required_field_empty nf.1

/-- marshmallow 2 marshalling of an object (modelled as an attribute
dict) through a schema's fields: every declared field whose attribute
is present contributes its serialized value (the identity for the
string and dict fields of the Error schema), and absent attributes
are simply skipped — dump does not enforce required, which is the
reason the mixin exists. -/
def marshal (flds : List (String × FieldSpec)) (obj : List (String × Value)) :
    List (String × Value) :=
  flds.filterMap (fun nf => (lookupS obj nf.1).map (fun v => (nf.1, v)))

/-- marshmallow 2 Schema.dump on a schema with the
ActuallyRequireOnDumpMixin: marshal the object, then run the
post_dump processor; a ValidationError raised there is caught and
returned in the errors of the MarshalResult (keyed _schema, here the
message list), while the data stays the marshalled mapping. -/
def schema_dump (flds : List (String × FieldSpec)) (obj : List (String × Value)) :
    List (String × Value) × List Msg :=
  let data := marshal flds obj
  match require_output_fields flds data with
  | some m => (data, [m])
  | none => (data, [])

/-- validation.py lines 203-207: the Error response schema declares
message (required string), code, details, errors (optional), in that
order. -/
def ErrorSchemaFields : List (String × FieldSpec) :=
  [("message", fields_String true),
   ("code", fields_String false),
   ("details", fields_Dict false),
   ("errors", fields_Dict false)]

/-- The state of a schema instance that disallow_extra_fields reads:
self.fields (the resolved field dict, which marshmallow builds with
the excluded names already removed) and self.exclude. -/
structure SchemaState where
  flds : List (String × FieldSpec)
  exclude : List String

/-- The load_from alternate input-keys declared on a field list
(validation.py lines 129-133). -/
def load_froms (flds : List (String × FieldSpec)) : List String :=
  flds.filterMap (fun nf => nf.2.load_from)

/-- validation.py lines 122-137
(DisallowExtraFieldsMixin.disallow_extra_fields): return silently
when the original input is not a dict; otherwise compute
unsupported = input keys minus (field names plus load_from keys)
minus self.exclude, as Python sets, and raise
unsupported_fields(unsupported) when that set is nonempty. -/
def unsupported_set (s : SchemaState) (entries : List (String × Value)) :
    Finset String :=
  ((entries.map Prod.fst).toFinset \
    (s.flds.map Prod.fst ++ load_froms s.flds).toFinset) \ s.exclude.toFinset

/-- The raise-or-return of disallow_extra_fields: raise
unsupported_fields of the unsupported set exactly when it is
nonempty (Python: len(unsupported_fields) > 0). -/
def disallow_extra_fields (s : SchemaState) (original_data : Value) : Option Msg :=
  match original_data with
  | Value.dict entries =>
    if 0 < (unsupported_set s entries).card
    then some (Msg.unsupported_fields (unsupported_set s entries)) else none
  | _ => none

/-- Claim-words acceptable-key set for C5 (spec wording, for
comparison with the source): declared field names union load_from
keys, minus the excluded names. -/
def claim_acceptable_keys (s : SchemaState) : Finset String :=
  ((s.flds.map Prod.fst).toFinset ∪ (load_froms s.flds).toFinset) \ s.exclude.toFinset

/-- The key set the source actually tolerates: field names, load_from
keys, and the excluded names (the code subtracts self.exclude from
the unsupported set, so excluded names never get flagged). -/
def code_acceptable_keys (s : SchemaState) : Finset String :=
  (s.flds.map Prod.fst).toFinset ∪ (load_froms s.flds).toFinset ∪ s.exclude.toFinset

/-- Whether a value is a Python dict in this model. -/
def isDict : Value → Bool
  | Value.dict _ => true
  | _ => false

/-- A generated schema class: its name and its field list. -/
structure SchemaClass where
  name : String
  flds : List (String × FieldSpec)

/-- validation.py lines 140-158 (ListOf): a new schema class named
ListOf plus the inner schema's name, with the single field data, a
Nested(schema, many=True), followed by any additional fields. -/
def ListOf (schemaName : String) (additional_fields : List (String × FieldSpec)) :
    SchemaClass :=
  { name := "ListOf" ++ schemaName,
    flds := ("data", fields_NestedMany schemaName) :: additional_fields }

/-- validation.py lines 161-166 (PaginatedListOf): ListOf with the
two pagination fields total_count = fields.Integer() and
next_page_url = fields.URL(allow_none=True). -/
def PaginatedListOf (schemaName : String) : SchemaClass :=
  ListOf schemaName
    [("total_count", fields_Integer), ("next_page_url", fields_URL true)]

/-- Decimal digit list to Nat, for the int() coercion below. -/
def digitsToNat (cs : List Char) : Nat :=
  cs.foldl (fun acc c => 10 * acc + (c.toNat - '0'.toNat)) 0

/-- Python int(s) on a string: an optional sign followed by a
nonempty run of decimal digits (surrounding whitespace and underscore
separators, which Python also tolerates, are not exercised by any
claim and are not modelled). -/
def pyIntOfString (s : String) : Option Int :=
  match s.data with
  | [] => none
  | '-' :: rest =>
    if !rest.isEmpty && rest.all Char.isDigit
    then some (-(Int.ofNat (digitsToNat rest))) else none
  | '+' :: rest =>
    if !rest.isEmpty && rest.all Char.isDigit
    then some (Int.ofNat (digitsToNat rest)) else none
  | cs =>
    if cs.all Char.isDigit then some (Int.ofNat (digitsToNat cs)) else none

/-- marshmallow 2 deserialization through a default fields.Integer()
(the total_count field): Field.deserialize rejects null (allow_none
is false), then _validated runs int(value): any Int is accepted
unchanged — there is no sign check — a string is accepted exactly
when int() parses it, and list or dict input is not a valid
integer. -/
def integer_field_deserialize (v : Value) : Except Msg Value :=
  match v with
  | Value.null => Except.error Msg.field_may_not_be_null
  | Value.int n => Except.ok (Value.int n)
  | Value.str s =>
    match pyIntOfString s with
    | some n => Except.ok (Value.int n)
    | none => Except.error Msg.not_a_valid_integer
  | _ => Except.error Msg.not_a_valid_integer

theorem lookupS_append {β : Type} (l1 l2 : List (String × β)) (k : String) :
    lookupS (l1 ++ l2) k = (lookupS l1 k).orElse (fun _ => lookupS l2 k) := by
  induction l1 with
  | nil => simp [lookupS, Option.orElse]
  | cons p rest ih =>
    by_cases h : p.1 = k
    · simp [lookupS, h, Option.orElse]
    · simp [lookupS, h, ih]

theorem lookupS_map_update {β : Type} (d1 d2 : List (String × β)) (k : String) :
    lookupS (d1.map (fun p => match lookupS d2 p.1 with
      | some v => (p.1, v)
      | none => p)) k =
    (lookupS d1 k).map (fun v => (lookupS d2 k).getD v) := by
  induction d1 with
  | nil => rfl
  | cons p rest ih =>
    by_cases h : p.1 = k
    · cases p with
      | mk k' v =>
        simp only at h
        subst h
        cases hd : lookupS d2 k' <;> simp [lookupS, hd]
    · cases p with
      | mk k' v =>
        simp only at h
        cases hd : lookupS d2 k' <;> simp [lookupS, hd, h, ih]

theorem lookupS_filter_isNone {β : Type} (d1 d2 : List (String × β)) (k : String) :
    lookupS (d2.filter (fun p => (lookupS d1 p.1).isNone)) k =
    if (lookupS d1 k).isNone then lookupS d2 k else none := by
  induction d2 with
  | nil => simp [lookupS]
  | cons p rest ih =>
    by_cases h : p.1 = k
    · cases p with
      | mk k' v =>
        simp only at h
        subst h
        cases hd : (lookupS d1 k').isNone <;>
          simp [List.filter_cons, lookupS, hd, ih]
    · cases p with
      | mk k' v =>
        simp only at h
        cases hd : (lookupS d1 k').isNone <;>
          simp [List.filter_cons, lookupS, hd, h, ih]

theorem lookupS_dictUpdate {β : Type} (d1 d2 : List (String × β)) (k : String) :
    lookupS (dictUpdate d1 d2) k = (lookupS d2 k).orElse (fun _ => lookupS d1 k) := by
  unfold dictUpdate
  rw [lookupS_append, lookupS_map_update, lookupS_filter_isNone]
  cases h1 : lookupS d1 k <;> cases h2 : lookupS d2 k <;>
    simp [Option.orElse, h1, h2]

theorem require_output_fields_eq_find (flds : List (String × FieldSpec))
    (data : List (String × Value)) :
    require_output_fields flds data =
      (flds.find? (violates data)).map (violationMsg data) := by
  induction flds with
  | nil => rfl
  | cons nf rest ih =>
    cases nf with
    | mk name f =>
      by_cases hreq : f.required
      · cases hl : lookupS data name with
        | none =>
          simp [require_output_fields, List.find?, violates, violationMsg, hl, hreq]
        | some v =>
          cases v <;>
            simp_all [require_output_fields, List.find?, violates, violationMsg, hl, hreq] <;>
          · by_cases han : f.allow_none <;>
              simp_all [require_output_fields, List.find?, violates, violationMsg]
      · simp [require_output_fields, List.find?, violates, hreq, ih]

theorem splitCommaCs_ne_nil (cs : List Char) : splitCommaCs cs ≠ [] := by
  induction cs with
  | nil => simp [splitCommaCs]
  | cons c rest ih =>
    by_cases h : c = ','
    · simp [splitCommaCs, h]
    · simp only [splitCommaCs, if_neg h]
      cases hs : splitCommaCs rest <;> simp

theorem splitCommaCs_append (a b : List Char) :
    splitCommaCs (a ++ ',' :: b) = splitCommaCs a ++ splitCommaCs b := by
  induction a with
  | nil => simp [splitCommaCs]
  | cons c rest ih =>
    by_cases h : c = ','
    · simp [splitCommaCs, h, ih]
    · cases hs : splitCommaCs rest with
      | nil => exact absurd hs (splitCommaCs_ne_nil rest)
      | cons s ss => simp [splitCommaCs, h, ih, hs]

theorem one_le_length_splitCommaCs (cs : List Char) :
    1 ≤ (splitCommaCs cs).length := by
  cases hs : splitCommaCs cs with
  | nil => exact absurd hs (splitCommaCs_ne_nil cs)
  | cons s ss => simp

theorem two_le_length_splitCommaCs (cs : List Char) (h : ',' ∈ cs) :
    2 ≤ (splitCommaCs cs).length := by
  induction cs with
  | nil => cases h
  | cons c rest ih =>
    by_cases hc : c = ','
    · have h1 := one_le_length_splitCommaCs rest
      simp [splitCommaCs, hc]
      omega
    · have hr : ',' ∈ rest := by
        rcases List.mem_cons.mp h with h1 | h2
        · exact absurd h1.symm hc
        · exact h2
      cases hs : splitCommaCs rest with
      | nil => exact absurd hs (splitCommaCs_ne_nil rest)
      | cons s ss =>
        have h2 := ih hr
        rw [hs] at h2
        simp only [splitCommaCs, if_neg hc, hs]
        simp at h2 ⊢
        omega

theorem length_le_length_flatMap_splitCommaCs (css : List (List Char)) :
    css.length ≤ (css.flatMap splitCommaCs).length := by
  induction css with
  | nil => simp
  | cons cs rest ih =>
    have h1 := one_le_length_splitCommaCs cs
    simp only [List.flatMap_cons, List.length_append, List.length_cons]
    omega

theorem splitCommaCs_joinCommaCs (css : List (List Char)) (h : css ≠ []) :
    splitCommaCs (joinCommaCs css) = css.flatMap splitCommaCs := by
  induction css with
  | nil => exact absurd rfl h
  | cons cs rest ih =>
    cases rest with
    | nil => simp [joinCommaCs]
    | cons cs2 rest2 =>
      have hne : cs2 :: rest2 ≠ [] := by simp
      have hj : joinCommaCs (cs :: cs2 :: rest2) =
          cs ++ ',' :: joinCommaCs (cs2 :: rest2) := rfl
      rw [hj, splitCommaCs_append, ih hne]
      simp [List.flatMap_cons]

theorem length_lt_length_flatMap_splitCommaCs (css : List (List Char))
    (h : ∃ cs ∈ css, ',' ∈ cs) :
    css.length < (css.flatMap splitCommaCs).length := by
  induction css with
  | nil =>
    rcases h with ⟨cs, hmem, _⟩
    cases hmem
  | cons cs rest ih =>
    simp only [List.flatMap_cons, List.length_append, List.length_cons]
    rcases h with ⟨cs0, hmem, hc⟩
    rcases List.mem_cons.mp hmem with heq | hmem2
    · subst heq
      have h2 := two_le_length_splitCommaCs cs0 hc
      have h3 := length_le_length_flatMap_splitCommaCs rest
      omega
    · have h2 := ih ⟨cs0, hmem2, hc⟩
      have h3 := one_le_length_splitCommaCs cs
      omega

/-- C1 counterexample: with two required fields x and y and an empty
dumped mapping, both fields are in violation, yet the post-dump check
raises at x and reports only that violation; y's violation is absent
from the failure result, so the check does not accumulate all
violations together. -/
theorem c1_counterexample :
    require_output_fields
      [("x", fields_String true), ("y", fields_String true)] [] =
      some (Msg.required_field_missing "x") ∧
    violates [] ("y", fields_String true) = true ∧
    Msg.required_field_missing "y" ∉
      (require_output_fields
        [("x", fields_String true), ("y", fields_String true)] []).toList := by
  refine ⟨rfl, rfl, ?_⟩
  decide

/-- C1 (amended): the post-dump required-field check does not
accumulate violations: it raises at the first violating field in
field-iteration order, so the failure result is exactly that single
field's message (missing or empty), and empty when no field
violates. -/
theorem c1_first_violation_only (flds : List (String × FieldSpec))
    (data : List (String × Value)) :
    require_output_fields flds data =
      (flds.find? (violates data)).map (violationMsg data) :=
  require_output_fields_eq_find flds data

/-- C2: the bidirectional schema wrapper's dump returns the original
serialized value (never the re-loaded one), and its failure set is
the dump failures merged with the round-trip load failures by dict
update: a key reported by the load carries the load's message, any
other key keeps the dump's message.  The equations hold
unconditionally, so in particular even when the round-trip load
reports new failures. -/
theorem c2_wrapped_dump_roundtrip {α γ δ β : Type}
    (dump : α → γ × List (String × β)) (load : γ → δ × List (String × β))
    (object : α) :
    (wrapped_dump dump load object).1 = (dump object).1 ∧
    (wrapped_dump dump load object).2 =
      dictUpdate (dump object).2 (load (dump object).1).2 ∧
    (∀ k : String,
      lookupS (wrapped_dump dump load object).2 k =
        (lookupS (load (dump object).1).2 k).orElse
          (fun _ => lookupS (dump object).2 k)) := by
  refine ⟨rfl, rfl, fun k => ?_⟩
  exact lookupS_dictUpdate (dump object).2 (load (dump object).1).2 k

/-- C3 counterexample: the 25-character string of 24 letters a
followed by a newline is not a string of 24 hexadecimal characters,
yet the wrapped ObjectId field serializes it successfully instead of
failing with invalid_object_id, because the Python end anchor of the
validation regex also matches just before a trailing newline. -/
theorem c3_counterexample :
    ObjectId_dump "aaaaaaaaaaaaaaaaaaaaaaaa\n" =
      Except.ok "aaaaaaaaaaaaaaaaaaaaaaaa\n" ∧
    is24HexChars "aaaaaaaaaaaaaaaaaaaaaaaa\n" = false := by
  exact ⟨rfl, by decide⟩

/-- C3 (amended): the bidirectional field wrapper's serialize first
runs the field's deserialize, discarding its result: a deserialize
failure surfaces as the same error as on the input path, and only on
success does the original serialize behaviour run.  Through wrapped
ObjectId, serializing a string fails with invalid_object_id exactly
when the string fails the implemented pattern match — which accepts
24 hex characters optionally followed by one trailing newline — while
the unwrapped string field emits any string unchecked. -/
theorem c3_wrapped_serialize_validates :
    (∀ (α β γ : Type) (deserialize : α → Except Msg β) (serialize : α → γ)
        (v : α) (e : Msg),
      deserialize v = Except.error e →
      wrapped_serialize deserialize serialize v = Except.error e) ∧
    (∀ (α β γ : Type) (deserialize : α → Except Msg β) (serialize : α → γ)
        (v : α) (b : β),
      deserialize v = Except.ok b →
      wrapped_serialize deserialize serialize v = Except.ok (serialize v)) ∧
    (∀ s : String, reMatchHex24Dollar s = false →
      ObjectId_dump s = Except.error Msg.invalid_object_id) ∧
    (∀ s : String, string_field_serialize s = s) := by
  refine ⟨?_, ?_, ?_, fun s => rfl⟩
  · intro α β γ deser ser v e h
    simp [wrapped_serialize, h]
  · intro α β γ deser ser v b h
    simp [wrapped_serialize, h]
  · intro s h
    simp [ObjectId_dump, wrapped_serialize, ObjectId_load, IsObjectId_call, h]

/-- C3 witness: the amended theorem applied at concrete inputs — a
non-matching string is rejected on the dump path, and a field whose
deserialize succeeds serializes with the original behaviour. -/
theorem c3_witness :
    ObjectId_dump "xyz" = Except.error Msg.invalid_object_id ∧
    wrapped_serialize (fun s : String => (Except.ok s : Except Msg String))
      (fun s : String => s) "q" = Except.ok "q" :=
  ⟨c3_wrapped_serialize_validates.2.2.1 "xyz" (by decide),
   c3_wrapped_serialize_validates.2.1 String String String
     (fun s => (Except.ok s : Except Msg String)) (fun s => s) "q" "q" rfl⟩

/-- C4: evaluation of the ObjectId load and dump paths at concrete
inputs.  The last two conjuncts exhibit the divergence: the
25-character input of 24 f characters plus a trailing newline is not
a string of exactly 24 hexadecimal characters, yet load accepts it,
because Python's regex end anchor in [0-9a-fA-F]{24}$ also matches
just before a final newline. -/
theorem c4_objectid_eval :
    ObjectId_load "0123456789abcdefABCDEF01" =
      Except.ok "0123456789abcdefABCDEF01" ∧
    ObjectId_dump "0123456789abcdefABCDEF01" =
      Except.ok "0123456789abcdefABCDEF01" ∧
    ObjectId_load "not-an-object-id" = Except.error Msg.invalid_object_id ∧
    ObjectId_load "ffffffffffffffffffffffff\n" =
      Except.ok "ffffffffffffffffffffffff\n" ∧
    is24HexChars "ffffffffffffffffffffffff\n" = false := by
  exact ⟨rfl, rfl, rfl, rfl, by decide⟩

/-- C6 counterexample: with field p required, non-nullable and
dumped as null, and field q required and absent from the dumped
mapping, the check fails with required_field_empty for p; the absent
required field q does not make the check fail with
required_field_missing for q, contrary to the claim's per-field
reading. -/
theorem c6_counterexample :
    require_output_fields
      [("p", fields_String true), ("q", fields_String true)]
      [("p", Value.null)] =
      some (Msg.required_field_empty "p") ∧
    lookupS [("p", Value.null)] "q" = (none : Option Value) ∧
    (fields_String true).required = true ∧
    Msg.required_field_missing "q" ∉
      (require_output_fields
        [("p", fields_String true), ("q", fields_String true)]
        [("p", Value.null)]).toList := by
  refine ⟨rfl, rfl, rfl, ?_⟩
  decide

/-- C6 (amended): for the FIRST violating required field in
field-iteration order the check fails with required_field_missing of
its name when the name is absent from the dumped mapping, and with
required_field_empty of its name when the name is present (with a
null value on a non-nullable field); later violations are not
reported.  In particular the Error schema dumping an object with only
the message attribute succeeds with code, details and errors absent,
and dumping an object lacking message fails with
required_field_missing of message. -/
theorem c6_first_violation_messages :
    (∀ (flds : List (String × FieldSpec)) (data : List (String × Value))
        (name : String) (f : FieldSpec),
      flds.find? (violates data) = some (name, f) →
      lookupS data name = none →
      require_output_fields flds data = some (Msg.required_field_missing name)) ∧
    (∀ (flds : List (String × FieldSpec)) (data : List (String × Value))
        (name : String) (f : FieldSpec) (v : Value),
      flds.find? (violates data) = some (name, f) →
      lookupS data name = some v →
      require_output_fields flds data = some (Msg.required_field_empty name)) ∧
    schema_dump ErrorSchemaFields [("message", Value.str "bad request")] =
      ([("message", Value.str "bad request")], []) ∧
    schema_dump ErrorSchemaFields [] =
      ([], [Msg.required_field_missing "message"]) := by
  refine ⟨?_, ?_, rfl, rfl⟩
  · intro flds data name f hfind hlook
    rw [require_output_fields_eq_find, hfind]
    simp [violationMsg, hlook]
  · intro flds data name f v hfind hlook
    rw [require_output_fields_eq_find, hfind]
    simp [violationMsg, hlook]

/-- C6 witness: the amended theorem applied at concrete schemas — a
single absent required field m reports missing, and a single
null-valued required field n reports empty. -/
theorem c6_witness :
    require_output_fields [("m", fields_String true)] [] =
      some (Msg.required_field_missing "m") ∧
    require_output_fields [("n", fields_String true)] [("n", Value.null)] =
      some (Msg.required_field_empty "n") :=
  ⟨c6_first_violation_messages.1 [("m", fields_String true)] [] "m"
      (fields_String true) (by decide) rfl,
   c6_first_violation_messages.2.1 [("n", fields_String true)]
      [("n", Value.null)] "n" (fields_String true) Value.null (by decide) rfl⟩

theorem String_data_mk (cs : List Char) : (String.mk cs).data = cs := rfl

theorem map_string_item_serialize_id (xs : List String) :
    xs.map string_item_serialize = xs := by
  induction xs with
  | nil => rfl
  | cons a t ih => simp [string_item_serialize, ih]

theorem map_string_item_deserialize_id (xs : List String) :
    xs.map string_item_deserialize = xs := by
  induction xs with
  | nil => rfl
  | cons a t ih => simp [string_item_deserialize, ih]

theorem mem_unsupported_set (s : SchemaState) (entries : List (String × Value))
    (k : String) :
    k ∈ unsupported_set s entries ↔
      k ∈ entries.map Prod.fst ∧ k ∉ code_acceptable_keys s := by
  simp only [unsupported_set, code_acceptable_keys, Finset.mem_sdiff,
    List.mem_toFinset, List.toFinset_append, Finset.mem_union, List.mem_append]
  tauto

/-- C5 counterexample: a schema instance with the single field a and
excluded name b, given the raw input mapping with keys a and b: the
key b is outside the claim's acceptable set (declared field names
plus load_from keys MINUS excluded names), yet the check passes
silently — the code subtracts the excluded names from the unsupported
set, so an excluded key in the input is tolerated, not rejected. -/
theorem c5_counterexample :
    disallow_extra_fields ⟨[("a", fields_String false)], ["b"]⟩
      (Value.dict [("a", Value.int 1), ("b", Value.int 2)]) = none ∧
    "b" ∉ claim_acceptable_keys ⟨[("a", fields_String false)], ["b"]⟩ ∧
    "b" ∈ [("a", Value.int 1), ("b", Value.int 2)].map Prod.fst := by
  refine ⟨by decide, by decide, by decide⟩

/-- C5 (amended): with the extra-fields mixin, the set of tolerated
raw input keys equals the declared field names, plus the load_from
alternate keys, PLUS the explicitly excluded names (excluded names
are tolerated, not rejected).  The check passes exactly when every
raw input key is in that set; when it fails, the failure carries
unsupported_fields with exactly the set of offending keys; and the
check is skipped entirely when the raw input is not a mapping. -/
theorem c5_disallow_extra_fields_spec :
    (∀ (s : SchemaState) (entries : List (String × Value)),
      disallow_extra_fields s (Value.dict entries) = none ↔
        ∀ k ∈ entries.map Prod.fst, k ∈ code_acceptable_keys s) ∧
    (∀ (s : SchemaState) (entries : List (String × Value)) (U : Finset String),
      disallow_extra_fields s (Value.dict entries) =
          some (Msg.unsupported_fields U) →
        U.Nonempty ∧ ∀ k : String,
          (k ∈ U ↔ k ∈ entries.map Prod.fst ∧ k ∉ code_acceptable_keys s)) ∧
    (∀ (s : SchemaState) (v : Value),
      isDict v = false → disallow_extra_fields s v = none) := by
  refine ⟨?_, ?_, ?_⟩
  · intro s entries
    by_cases hc : 0 < (unsupported_set s entries).card
    · simp only [disallow_extra_fields, if_pos hc]
      constructor
      · intro h; cases h
      · intro h
        exfalso
        obtain ⟨k, hk⟩ := Finset.card_pos.mp hc
        rw [mem_unsupported_set] at hk
        exact hk.2 (h k hk.1)
    · simp only [disallow_extra_fields, if_neg hc]
      constructor
      · intro _ k hk
        by_contra hacc
        exact hc (Finset.card_pos.mpr
          ⟨k, (mem_unsupported_set s entries k).mpr ⟨hk, hacc⟩⟩)
      · intro _; trivial
  · intro s entries U hU
    by_cases hc : 0 < (unsupported_set s entries).card
    · simp only [disallow_extra_fields, if_pos hc, Option.some.injEq,
        Msg.unsupported_fields.injEq] at hU
      subst hU
      exact ⟨Finset.card_pos.mp hc, mem_unsupported_set s entries⟩
    · simp only [disallow_extra_fields, if_neg hc] at hU
      cases hU
  · intro s v hv
    cases v <;> simp_all [disallow_extra_fields, isDict]

/-- C5 witness: the amended theorem applied at concrete inputs — a
schema with the single field a, input keys a and c, failing with the
offending set containing exactly c, and a non-mapping input on which
the check is skipped. -/
theorem c5_witness :
    ("c" ∈ ({"c"} : Finset String) ↔
      "c" ∈ [("a", Value.int 1), ("c", Value.int 3)].map Prod.fst ∧
      "c" ∉ code_acceptable_keys ⟨[("a", fields_String false)], []⟩) ∧
    disallow_extra_fields ⟨[("a", fields_String false)], []⟩ (Value.int 7) =
      none :=
  ⟨(c5_disallow_extra_fields_spec.2.1 ⟨[("a", fields_String false)], []⟩
      [("a", Value.int 1), ("c", Value.int 3)] {"c"} (by decide)).2 "c",
   c5_disallow_extra_fields_spec.2.2 ⟨[("a", fields_String false)], []⟩
      (Value.int 7) (by decide)⟩

/-- C7 counterexample: the total_count field of PaginatedListOf is a
plain Integer with no validators, and Integer deserialization accepts
the negative integer -1 unchanged — so total_count does not accept
only non-negative integers. -/
theorem c7_counterexample :
    lookupS (PaginatedListOf "Foo").flds "total_count" = some fields_Integer ∧
    integer_field_deserialize (Value.int (-1)) = Except.ok (Value.int (-1)) ∧
    (-1 : Int) < 0 := by
  exact ⟨by decide, rfl, by decide⟩

/-- C7 (amended): PaginatedListOf produces the single data field of
ListOf plus exactly two additional fields: total_count, a plain
Integer field that accepts every integer — negative included, there
is no sign constraint — and next_page_url, a nullable URL field. -/
theorem c7_paginated_list_of (schemaName : String) :
    (PaginatedListOf schemaName).flds =
      [("data", fields_NestedMany schemaName),
       ("total_count", fields_Integer),
       ("next_page_url", fields_URL true)] ∧
    (PaginatedListOf schemaName).name = "ListOf" ++ schemaName ∧
    (∀ n : Int, integer_field_deserialize (Value.int n) = Except.ok (Value.int n)) ∧
    fields_Integer.kind = FieldKind.integerK ∧
    (fields_URL true).allow_none = true ∧
    (fields_URL true).kind = FieldKind.urlK := by
  exact ⟨rfl, rfl, fun n => rfl, rfl, rfl, rfl⟩

/-- C8: dumping the list a, b, c through a CommaSeparatedList of
string items serializes each item and joins with a comma, producing
a,b,c; loading that string splits on commas and deserializes each
piece, yielding the original list back exactly. -/
theorem c8_comma_separated_roundtrip :
    commaSeparatedList_serialize ["a", "b", "c"] = "a,b,c" ∧
    pySplitComma "a,b,c" = ["a", "b", "c"] ∧
    commaSeparatedList_deserialize
      (commaSeparatedList_serialize ["a", "b", "c"]) = ["a", "b", "c"] := by
  exact ⟨rfl, rfl, rfl⟩

/-- C9: the ObjectId and UUID validators coerce their argument with
str() before matching: a value of any type whose string
representation matches the pattern passes, a value is rejected only
because its string representation fails the pattern, and two values
of arbitrary (possibly different) types with equal string
representations get the same verdict — the validator never inspects
the type.  In particular the integer with 24 decimal digits (decimal
digits are hex digits) passes the ObjectId validator. -/
theorem c9_validators_coerce_with_str :
    (∀ (α : Type) (pyStrFn : α → String) (v : α),
      reMatchHex24Dollar (pyStrFn v) = true → IsObjectId_call pyStrFn v = none) ∧
    (∀ (α : Type) (pyStrFn : α → String) (v : α),
      reMatchUUIDDollar (pyStrFn v) = true → IsUUID_call pyStrFn v = none) ∧
    (∀ (α : Type) (pyStrFn : α → String) (v : α) (m : Msg),
      IsObjectId_call pyStrFn v = some m →
        reMatchHex24Dollar (pyStrFn v) = false) ∧
    (∀ (α β : Type) (f : α → String) (g : β → String) (v : α) (w : β),
      f v = g w →
        IsObjectId_call f v = IsObjectId_call g w ∧
        IsUUID_call f v = IsUUID_call g w) ∧
    IsObjectId_call (fun n : Int => toString n) 111111111111111111111111 = none := by
  refine ⟨?_, ?_, ?_, ?_, by decide⟩
  · intro α p v h
    simp [IsObjectId_call, h]
  · intro α p v h
    simp [IsUUID_call, h]
  · intro α p v m h
    by_cases hm : reMatchHex24Dollar (p v) = true
    · simp [IsObjectId_call, hm] at h
    · simpa using hm
  · intro α β f g v w h
    constructor
    · simp [IsObjectId_call, h]
    · simp [IsUUID_call, h]

/-- C9 witness: the theorem applied at concrete inputs — an Int whose
decimal representation is 24 digits passes the ObjectId validator,
and a canonical UUID string passes the UUID validator. -/
theorem c9_witness :
    IsObjectId_call (fun n : Int => toString n) 222222222222222222222222 = none ∧
    IsUUID_call (fun s : String => s)
      "01234567-89ab-cdef-0123-456789abcdef" = none :=
  ⟨c9_validators_coerce_with_str.1 Int (fun n => toString n)
      222222222222222222222222 (by decide),
   c9_validators_coerce_with_str.2.1 String (fun s => s)
      "01234567-89ab-cdef-0123-456789abcdef" (by decide)⟩

/-- C10: whenever some item of the list contains a comma, the
CommaSeparatedList round trip fails to restore the list: the dump
joins the item strings with commas, the load splits at every comma,
and the re-loaded list has strictly more items than the original. -/
theorem c10_comma_roundtrip_grows (l : List String)
    (h : ∃ s ∈ l, ',' ∈ s.data) :
    l.length <
      (commaSeparatedList_deserialize (commaSeparatedList_serialize l)).length ∧
    commaSeparatedList_deserialize (commaSeparatedList_serialize l) ≠ l := by
  have hne : l.map String.data ≠ [] := by
    rcases h with ⟨s, hs, _⟩
    intro hemp
    rw [List.map_eq_nil_iff] at hemp
    subst hemp
    cases hs
  have hex : ∃ cs ∈ l.map String.data, ',' ∈ cs := by
    rcases h with ⟨s, hs, hc⟩
    exact ⟨s.data, List.mem_map_of_mem String.data hs, hc⟩
  have hlt := length_lt_length_flatMap_splitCommaCs (l.map String.data) hex
  rw [← splitCommaCs_joinCommaCs (l.map String.data) hne] at hlt
  have hds : commaSeparatedList_deserialize (commaSeparatedList_serialize l) =
      (splitCommaCs (joinCommaCs (l.map String.data))).map
        (fun cs => String.mk cs) := by
    unfold commaSeparatedList_serialize commaSeparatedList_deserialize
      pySplitComma pyJoinComma
    rw [map_string_item_serialize_id, String_data_mk,
      map_string_item_deserialize_id]
  rw [List.length_map] at hlt
  constructor
  · rw [hds, List.length_map]
    exact hlt
  · intro heq
    have hlen := congrArg List.length heq
    rw [hds, List.length_map] at hlen
    omega

/-- C10 witness: the theorem applied at the one-item list whose item
contains a comma — the round trip yields two items. -/
theorem c10_witness :
    (["a,b"] : List String).length <
      (commaSeparatedList_deserialize (commaSeparatedList_serialize ["a,b"])).length :=
  (c10_comma_roundtrip_grows ["a,b"] (by decide)).1

end FlaskToolbox
